import Mathlib

/-!
Verification of the dataset-reconciliation and geospatial-validation core of
the Streamlit Jakarta restaurant-mapping application (`app.py`).

The tabular data handled by the pandas code is embedded shallowly:

* a cell is `Option Val` (`none` models a missing value / `NaN`;
  `Val` covers the numeric, string and RGBA-list values the app stores);
* a `DataFrame` is a list of column names plus row-major cells;
* fallible pandas operations (`KeyError` on a missing column, `TypeError`
  on comparing a non-number) are modelled with `Except String`;
* Python floats are modelled as rationals (`ℚ`); the coordinate
  comparisons of the source involve only decimal literals, which are exact.

Each definition mirrors a function or block of `app.py`, as noted in its
doc comment.
-/

/-- A non-missing cell value: a number, a string, or an RGBA color list
(the `warna` color tags `[r, g, b, a]` the app attaches per category). -/
inductive Val where
  | num (q : ℚ)
  | str (s : String)
  | rgba (r g b a : ℕ)
deriving DecidableEq, Repr

/-- A pandas DataFrame: ordered column names and row-major cells.
`none` cells model `NaN` / missing values. -/
structure DataFrame where
  cols : List String
  rows : List (List (Option Val))
deriving DecidableEq, Repr

/-- `pd.DataFrame()`: the empty frame, no columns and no rows. -/
def emptyDF : DataFrame := ⟨[], []⟩

/-- `df.empty` in pandas: true when either axis has length 0. -/
def DataFrame.isEmpty (df : DataFrame) : Bool :=
  df.rows.isEmpty || df.cols.isEmpty

/-- Index of the first column with the given name (pandas label lookup);
`none` models the `KeyError` case. -/
def colIdx? (cols : List String) (c : String) : Option ℕ :=
  match cols with
  | [] => none
  | c' :: rest => if c' = c then some 0 else (colIdx? rest c).map (· + 1)

/-- The cells of column `i`, top to bottom (`df[col]` as a Series). -/
def DataFrame.col (df : DataFrame) (i : ℕ) : List (Option Val) :=
  df.rows.map (fun r => r.getD i none)

/-- Extract the success value of an `Except`, with a default. -/
def exceptGetD {ε α : Type} (x : Except ε α) (d : α) : α :=
  match x with
  | Except.ok a => a
  | Except.error _ => d

/-- `Config.JAKARTA_BOUNDS['min_lat'] = -6.45` (app.py line 23), written
as an explicit fraction so that the kernel can evaluate comparisons (see
`Config_min_lat_eq`). -/
def Config.min_lat : ℚ := mkRat (-645) 100
/-- `Config.JAKARTA_BOUNDS['max_lat'] = -6.08` (app.py line 23). -/
def Config.max_lat : ℚ := mkRat (-608) 100
/-- `Config.JAKARTA_BOUNDS['min_lon'] = 106.60` (app.py line 24). -/
def Config.min_lon : ℚ := mkRat 10660 100
/-- `Config.JAKARTA_BOUNDS['max_lon'] = 107.10` (app.py line 24). -/
def Config.max_lon : ℚ := mkRat 10710 100

/-- A chained Python comparison `lo <= v <= hi`. On a non-numeric value the
first comparison raises `TypeError`, which the `Except` error models. -/
def inRangeQ (lo hi : ℚ) (v : Val) : Except String Bool :=
  match v with
  | Val.num q => Except.ok (decide (lo ≤ q) && decide (q ≤ hi))
  | _ => Except.error "TypeError"

/-- `validate_coordinates(lat, lon)` (app.py lines 41-54) applied to two
cells. Mirrors the source's order and short-circuiting exactly: the
`pd.isna` test first (missing value on either side returns `False` without
touching the other), then the absolute geodetic range test
(`not (-90 <= lat <= 90) or not (-180 <= lon <= 180)` — the `or`
short-circuits, so `lon` is not compared when `lat` is out of range),
then the two Jakarta-bounds tests. -/
def validate_cell : Option Val → Option Val → Except String Bool
  | none, _ => Except.ok false
  | some _, none => Except.ok false
  | some lv, some wv =>
    match inRangeQ (-90) 90 lv with
    | Except.error e => Except.error e
    | Except.ok a =>
      if !a then Except.ok false
      else
        match inRangeQ (-180) 180 wv with
        | Except.error e => Except.error e
        | Except.ok b =>
          if !b then Except.ok false
          else
            match inRangeQ Config.min_lat Config.max_lat lv with
            | Except.error e => Except.error e
            | Except.ok c =>
              if !c then Except.ok false
              else inRangeQ Config.min_lon Config.max_lon wv

/-- The row-wise validation-and-filter step of `clean_coordinates`
(app.py lines 66-69): `df.apply(validate_coordinates, axis=1)` followed by
boolean-mask selection. A `TypeError` raised on some row propagates. -/
def filterValidRows (i j : ℕ) :
    List (List (Option Val)) → Except String (List (List (Option Val)))
  | [] => Except.ok []
  | r :: rest =>
    match validate_cell (r.getD i none) (r.getD j none) with
    | Except.error e => Except.error e
    | Except.ok b =>
      match filterValidRows i j rest with
      | Except.error e => Except.error e
      | Except.ok kept => Except.ok (if b then r :: kept else kept)

/-- The row filter of `df.dropna(subset=[lat_col, lon_col])`: keep the rows
whose cells in both coordinate columns are present. -/
def dropnaRows (i j : ℕ) (rows : List (List (Option Val))) :
    List (List (Option Val)) :=
  rows.filter (fun r => (r.getD i none).isSome && (r.getD j none).isSome)

/-- `clean_coordinates(df, lat_col, lon_col, _)` (app.py lines 56-71):
empty input returned unchanged; `df.dropna(subset=[lat_col, lon_col])`
(`KeyError` when a subset column is absent, modelled by the error branch of
the column lookup); early return when nothing is left; otherwise the
row-wise `validate_coordinates` filter. -/
def clean_coordinates (df : DataFrame) (lat_col lon_col : String) :
    Except String DataFrame :=
  if df.isEmpty then Except.ok df
  else
    match colIdx? df.cols lat_col, colIdx? df.cols lon_col with
    | some i, some j =>
      if (dropnaRows i j df.rows).isEmpty then
        Except.ok ⟨df.cols, dropnaRows i j df.rows⟩
      else
        match filterValidRows i j (dropnaRows i j df.rows) with
        | Except.error e => Except.error e
        | Except.ok rs => Except.ok ⟨df.cols, rs⟩
    | _, _ => Except.error "KeyError: dropna subset"

/-- `df.rename(columns=...)`: each column label present in the alias list is
replaced by its canonical name; labels not in the list are untouched.
(pandas `rename` ignores alias keys absent from the frame, so renaming with
the full alias list is the same as the source's conditionally built dict.) -/
def renameCols (df : DataFrame) (m : List (String × String)) : DataFrame :=
  ⟨df.cols.map (fun c =>
      match List.lookup c m with
      | some n => n
      | none => c),
   df.rows⟩

/-- Column standardization of the ESB frame (app.py lines 107-109): the
source renames `longitude`/`latitude` only when BOTH are present. -/
def standardize_esb (df : DataFrame) : DataFrame :=
  if df.cols.contains "longitude" && df.cols.contains "latitude" then
    renameCols df [("longitude", "lon"), ("latitude", "lat")]
  else df

/-- Column standardization of the Jakarta frame (app.py lines 111-121):
each of the three aliases present is renamed, independently. -/
def standardize_jakarta (df : DataFrame) : DataFrame :=
  renameCols df
    [("longitude", "lon"), ("latitude", "lat"), ("Nama Restoran", "nama_restoran")]

/-- Membership test used for the Python set difference
`esb_brands - matched_brands` (app.py lines 168-170): the two sets are built
from `unique()` arrays of different frames, and a `NaN` element compares
unequal (and non-identical) to any element of the other set, so a missing
value is never subtracted. -/
def pyNotInSet (c : Option Val) (s : List (Option Val)) : Bool :=
  match c with
  | none => true
  | some v => ! s.contains (some v)

/-- The `esb_unmatched` frame (app.py lines 166-173): all of `df_esb_clean`
when the matched (green) frame is empty; otherwise the rows whose
`brandName` is in `set(esb.brandName.unique()) - set(green.nama_restoran.unique())`,
selected with `.isin` (which, unlike the Python set difference, does match a
`NaN` cell against a `NaN` member, hence plain `contains` here). -/
def esb_unmatched_of (esb green : DataFrame) : Except String DataFrame :=
  if green.isEmpty then Except.ok esb
  else
    match colIdx? esb.cols "brandName", colIdx? green.cols "nama_restoran" with
    | some ib, some ig =>
      Except.ok ⟨esb.cols,
        esb.rows.filter (fun r =>
          (((esb.col ib).dedup).filter
              (fun c => pyNotInSet c ((green.col ig).dedup))).contains
            (r.getD ib none))⟩
    | _, _ => Except.error "KeyError: brandName or nama_restoran"

/-- The `jakarta_unmatched` frame (app.py lines 193-200), symmetric to
`esb_unmatched_of` but keyed on the Jakarta frame's own `nama_restoran`
column. -/
def jakarta_unmatched_of (jak green : DataFrame) : Except String DataFrame :=
  if green.isEmpty then Except.ok jak
  else
    match colIdx? jak.cols "nama_restoran", colIdx? green.cols "nama_restoran" with
    | some ij, some ig =>
      Except.ok ⟨jak.cols,
        jak.rows.filter (fun r =>
          (((jak.col ij).dedup).filter
              (fun c => pyNotInSet c ((green.col ig).dedup))).contains
            (r.getD ij none))⟩
    | _, _ => Except.error "KeyError: nama_restoran"

/-- Column labels of the green (Match) output frame: the four projected and
renamed matched columns, the optional similarity/confidence columns when
present in the source frame, then `kategori` and `warna`. -/
def green_cols (sim conf : Option ℕ) : List String :=
  ["nama_restoran", "cabang", "lat", "lon"]
    ++ (match sim with | some _ => ["name_similarity"] | none => [])
    ++ (match conf with | some _ => ["match_confidence"] | none => [])
    ++ ["kategori", "warna"]

/-- One green output row, built from a cleaned matched row (app.py lines
142-158). pandas column assignment aligns rows positionally here (same
index), so the block is a per-row map. -/
def green_row (i1 i2 i3 i4 : ℕ) (sim conf : Option ℕ)
    (r : List (Option Val)) : List (Option Val) :=
  [r.getD i1 none, r.getD i2 none, r.getD i3 none, r.getD i4 none]
    ++ (match sim with | some k => [r.getD k none] | none => [])
    ++ (match conf with | some k => [r.getD k none] | none => [])
    ++ [some (Val.str "Match"), some (Val.rgba 0 255 0 200)]

/-- The green (Match) try-block body (app.py lines 142-158): project
`brandName_esb`, `branchName_esb`, `latitude_esb`, `longitude_esb` (a
`KeyError` — the error branch — when any is absent), rename them, carry
`name_similarity`/`match_confidence` when present, tag category and color. -/
def green_block (m : DataFrame) : Except String DataFrame :=
  match colIdx? m.cols "brandName_esb", colIdx? m.cols "branchName_esb",
        colIdx? m.cols "latitude_esb", colIdx? m.cols "longitude_esb" with
  | some i1, some i2, some i3, some i4 =>
    Except.ok
      ⟨green_cols (colIdx? m.cols "name_similarity") (colIdx? m.cols "match_confidence"),
       m.rows.map (green_row i1 i2 i3 i4 (colIdx? m.cols "name_similarity")
          (colIdx? m.cols "match_confidence"))⟩
  | _, _, _, _ => Except.error "KeyError: matched columns"

/-- Column labels of the orange (Hanya ESB) output frame. -/
def orange_cols (city : Option ℕ) : List String :=
  ["nama_restoran", "cabang", "lat", "lon"]
    ++ (match city with | some _ => ["cityName"] | none => [])
    ++ ["kategori", "warna"]

/-- One orange output row, built from an `esb_unmatched` row (app.py lines
175-185). -/
def orange_row (i1 i2 i3 i4 : ℕ) (city : Option ℕ)
    (r : List (Option Val)) : List (Option Val) :=
  [r.getD i1 none, r.getD i2 none, r.getD i3 none, r.getD i4 none]
    ++ (match city with | some k => [r.getD k none] | none => [])
    ++ [some (Val.str "Hanya ESB"), some (Val.rgba 255 165 0 200)]

/-- The orange (Hanya ESB) try-block body (app.py lines 166-185):
`esb_unmatched` derivation, projection of `brandName`, `branchName`, `lat`,
`lon` (`KeyError` when any is absent), rename, optional `cityName`,
category and color tags. -/
def orange_block (esb green : DataFrame) : Except String DataFrame :=
  match esb_unmatched_of esb green with
  | Except.error e => Except.error e
  | Except.ok u =>
    match colIdx? u.cols "brandName", colIdx? u.cols "branchName",
          colIdx? u.cols "lat", colIdx? u.cols "lon" with
    | some i1, some i2, some i3, some i4 =>
      Except.ok
        ⟨orange_cols (colIdx? u.cols "cityName"),
         u.rows.map (orange_row i1 i2 i3 i4 (colIdx? u.cols "cityName"))⟩
    | _, _, _, _ => Except.error "KeyError: esb columns"

/-- Column labels of the blue (Hanya Jakarta) output frame. -/
def blue_cols (pricing : Option ℕ) : List String :=
  ["nama_restoran", "lat", "lon"]
    ++ (match pricing with | some _ => ["Pricing"] | none => [])
    ++ ["cabang", "cityName", "kategori", "warna"]

/-- One blue output row, built from a `jakarta_unmatched` row (app.py lines
202-210): projection, optional `Pricing`, empty-string `cabang` and
`cityName`, category and color tags. -/
def blue_row (i1 i2 i3 : ℕ) (pricing : Option ℕ)
    (r : List (Option Val)) : List (Option Val) :=
  [r.getD i1 none, r.getD i2 none, r.getD i3 none]
    ++ (match pricing with | some k => [r.getD k none] | none => [])
    ++ [some (Val.str ""), some (Val.str ""),
        some (Val.str "Hanya Jakarta"), some (Val.rgba 0 0 255 200)]

/-- The blue (Hanya Jakarta) try-block body (app.py lines 193-210). -/
def blue_block (jak green : DataFrame) : Except String DataFrame :=
  match jakarta_unmatched_of jak green with
  | Except.error e => Except.error e
  | Except.ok u =>
    match colIdx? u.cols "nama_restoran", colIdx? u.cols "lat",
          colIdx? u.cols "lon" with
    | some i1, some i2, some i3 =>
      Except.ok
        ⟨blue_cols (colIdx? u.cols "Pricing"),
         u.rows.map (blue_row i1 i2 i3 (colIdx? u.cols "Pricing"))⟩
    | _, _, _ => Except.error "KeyError: jakarta columns"

/-- One category block of `load_and_process_data`: skipped (leaving the
initial `pd.DataFrame()`) when its cleaned input is empty, and its
`try/except` leaves the initial empty frame when the body raises
(app.py lines 135-137, 140, 160-161, 164, 187-188, 191, 212-213). -/
def runBlock (cond : Bool) (blk : Except String DataFrame) : DataFrame :=
  if cond then
    match blk with
    | Except.ok d => d
    | Except.error _ => emptyDF
  else emptyDF

/-- `load_and_process_data` after file loading (app.py lines 105-216):
column standardization, the three `clean_coordinates` calls — which are NOT
inside any `try` block, so an error there propagates out of the whole
function — then the three guarded category blocks. -/
def load_and_process_data (df_matched df_esb_full df_jakarta_full : DataFrame) :
    Except String (DataFrame × DataFrame × DataFrame) :=
  match clean_coordinates df_matched "latitude_esb" "longitude_esb" with
  | Except.error e => Except.error e
  | Except.ok df_matched_clean =>
    match clean_coordinates (standardize_esb df_esb_full) "lat" "lon" with
    | Except.error e => Except.error e
    | Except.ok df_esb_clean =>
      match clean_coordinates (standardize_jakarta df_jakarta_full) "lat" "lon" with
      | Except.error e => Except.error e
      | Except.ok df_jakarta_clean =>
        Except.ok
          (runBlock (!df_matched_clean.isEmpty) (green_block df_matched_clean),
           runBlock (!df_esb_clean.isEmpty)
             (orange_block df_esb_clean
               (runBlock (!df_matched_clean.isEmpty) (green_block df_matched_clean))),
           runBlock (!df_jakarta_clean.isEmpty)
             (blue_block df_jakarta_clean
               (runBlock (!df_matched_clean.isEmpty) (green_block df_matched_clean))))

/-- `total_green = len(green_data) if not green_data.empty else 0`
(app.py lines 424-426). -/
def count_of (df : DataFrame) : ℕ :=
  if df.isEmpty then 0 else df.rows.length

/-- `total_all` (app.py line 427). -/
def grand_total (g o b : DataFrame) : ℕ :=
  count_of g + count_of o + count_of b

/-- One percentage cell of the summary table (app.py lines 748-751):
`(count / total_all) * 100` guarded by `if total_all > 0 else "0%"`.
The exact rational value is modelled; the source formats it with `.2f`. -/
def pct (n total : ℕ) : ℚ :=
  if 0 < total then ((n : ℚ) / (total : ℚ)) * 100 else 0

/-- The three percentage fields of the summary tab (app.py lines 745-753). -/
def summary_percentages (g o b : DataFrame) : ℚ × ℚ × ℚ :=
  (pct (count_of g) (grand_total g o b),
   pct (count_of o) (grand_total g o b),
   pct (count_of b) (grand_total g o b))

/-- The spec's matched identity-key set: the values in the matched output's
`nama_restoran` column (empty when the matched output is empty). Stated
from the spec's words for comparison with the source-derived set logic. -/
def matchedNameCells (green : DataFrame) : List (Option Val) :=
  if green.isEmpty then []
  else
    match colIdx? green.cols "nama_restoran" with
    | some ig => green.col ig
    | none => []

/-- The spec's identity-key membership: a record's identity cell is in the
matched set when it holds a value that occurs among the matched output's
identity cells (a record with a missing identity cell has no identity key,
so it is never in the set). Stated from the spec's words. -/
def inMatchedSet (c : Option Val) (green : DataFrame) : Bool :=
  match c with
  | none => false
  | some v => (matchedNameCells green).contains (some v)

/-- The spec's coordinate invariant on a categorized output frame: every
row's cells in the canonical `lat`/`lon` columns pass
`validate_coordinates`. Stated from the spec's words. -/
def hasValidCoords (df : DataFrame) : Prop :=
  ∀ r ∈ df.rows, ∃ i j, colIdx? df.cols "lat" = some i ∧
    colIdx? df.cols "lon" = some j ∧
    validate_cell (r.getD i none) (r.getD j none) = Except.ok true

/-- Sample matched input: one row, valid Jakarta coordinates, brand `A`. -/
def sampleMatched : DataFrame :=
  ⟨["brandName_esb", "branchName_esb", "latitude_esb", "longitude_esb"],
   [[some (Val.str "A"), some (Val.str "1"),
     some (Val.num (mkRat (-620) 100)), some (Val.num (mkRat 10680 100))]]⟩

/-- The green output frame produced from `sampleMatched`. -/
def sampleGreen : DataFrame := exceptGetD (green_block sampleMatched) emptyDF

/-- Sample ESB input: brands `A` (matched) and `B` (unmatched), valid
coordinates. -/
def sampleEsb : DataFrame :=
  ⟨["brandName", "branchName", "lat", "lon"],
   [[some (Val.str "A"), some (Val.str "1"),
     some (Val.num (mkRat (-620) 100)), some (Val.num (mkRat 10680 100))],
    [some (Val.str "B"), some (Val.str "2"),
     some (Val.num (mkRat (-621) 100)), some (Val.num (mkRat 10681 100))]]⟩

/-- Sample Jakarta input: restaurants `A` and `C`, valid coordinates. -/
def sampleJak : DataFrame :=
  ⟨["nama_restoran", "lat", "lon"],
   [[some (Val.str "A"), some (Val.num (mkRat (-620) 100)), some (Val.num (mkRat 10680 100))],
    [some (Val.str "C"), some (Val.num (mkRat (-622) 100)), some (Val.num (mkRat 10682 100))]]⟩

/-- A non-empty, otherwise-valid ESB frame missing the required `lat`
column. -/
def sampleEsbNoLat : DataFrame :=
  ⟨["brandName", "branchName", "lon"],
   [[some (Val.str "B"), some (Val.str "2"), some (Val.num (mkRat 10681 100))]]⟩

/-- A non-empty, otherwise-valid ESB frame missing the required
`brandName` column. -/
def sampleEsbNoBrand : DataFrame :=
  ⟨["branchName", "lat", "lon"],
   [[some (Val.str "2"), some (Val.num (mkRat (-621) 100)), some (Val.num (mkRat 10681 100))]]⟩

/-- A non-empty, otherwise-valid matched frame missing the required
`brandName_esb` column. -/
def sampleMatchedNoBrand : DataFrame :=
  ⟨["branchName_esb", "latitude_esb", "longitude_esb"],
   [[some (Val.str "1"), some (Val.num (mkRat (-620) 100)), some (Val.num (mkRat 10680 100))]]⟩

theorem validate_ok_true_isSome {a b : Option Val}
    (h : validate_cell a b = Except.ok true) : a.isSome ∧ b.isSome := by
  cases a with
  | none => simp [validate_cell] at h
  | some av =>
    cases b with
    | none => simp [validate_cell] at h
    | some bv => simp

theorem filterValidRows_ok_mem {i j : ℕ} :
    ∀ {l rs : List (List (Option Val))}, filterValidRows i j l = Except.ok rs →
      ∀ r ∈ rs,
        validate_cell (r.getD i none) (r.getD j none) = Except.ok true ∧ r ∈ l := by
  intro l
  induction l with
  | nil =>
    intro rs h r hr
    simp only [filterValidRows] at h
    injection h with h
    subst h
    simp at hr
  | cons a t ih =>
    intro rs h r hr
    simp only [filterValidRows] at h
    cases hv : validate_cell (a.getD i none) (a.getD j none) with
    | error e => rw [hv] at h; cases h
    | ok bb =>
      rw [hv] at h
      cases hrec : filterValidRows i j t with
      | error e => rw [hrec] at h; cases h
      | ok kept =>
        rw [hrec] at h
        have hrs := Except.ok.inj h
        cases bb with
        | true =>
          rw [if_pos rfl] at hrs
          rw [← hrs] at hr
          rcases List.mem_cons.mp hr with h1 | h1
          · subst h1
            exact ⟨hv, List.mem_cons_self r t⟩
          · obtain ⟨h2, h3⟩ := ih hrec r h1
            exact ⟨h2, List.mem_cons_of_mem a h3⟩
        | false =>
          simp only [Bool.false_eq_true, if_false] at hrs
          rw [← hrs] at hr
          obtain ⟨h2, h3⟩ := ih hrec r hr
          exact ⟨h2, List.mem_cons_of_mem a h3⟩

theorem filterValidRows_of_all {i j : ℕ} {l : List (List (Option Val))}
    (h : ∀ r ∈ l, validate_cell (r.getD i none) (r.getD j none) = Except.ok true) :
    filterValidRows i j l = Except.ok l := by
  induction l with
  | nil => rfl
  | cons a t ih =>
    have ha := h a (List.mem_cons_self a t)
    have ht := ih (fun r hr => h r (List.mem_cons_of_mem a hr))
    simp only [filterValidRows]
    rw [ha, ht]
    simp

theorem clean_coordinates_cols {df d : DataFrame} {c1 c2 : String}
    (h : clean_coordinates df c1 c2 = Except.ok d) : d.cols = df.cols := by
  unfold clean_coordinates at h
  split at h
  · injection h with h; subst h; rfl
  · split at h
    · split at h
      · injection h with h; subst h; rfl
      · split at h
        · cases h
        · injection h with h; subst h; rfl
    · cases h

/-- A frame produced by a successful `clean_coordinates` is a fixed point
of `clean_coordinates`. -/
theorem clean_coordinates_fixed {df d : DataFrame} {c1 c2 : String}
    (h : clean_coordinates df c1 c2 = Except.ok d) :
    clean_coordinates d c1 c2 = Except.ok d := by
  unfold clean_coordinates at h
  split at h
  · rename_i he
    injection h with h
    subst h
    simp [clean_coordinates, he]
  · rename_i he
    split at h
    · rename_i i j hi hj
      split at h
      · rename_i hkept
        injection h with h
        subst h
        simp [clean_coordinates, DataFrame.isEmpty, hkept]
      · split at h
        · cases h
        · rename_i rs hrs
          injection h with h
          subst h
          have hall : ∀ r ∈ rs,
              validate_cell (r.getD i none) (r.getD j none) = Except.ok true :=
            fun r hr => (filterValidRows_ok_mem hrs r hr).1
          have hsome : ∀ r ∈ rs,
              ((r.getD i none).isSome && (r.getD j none).isSome) = true := by
            intro r hr
            obtain ⟨h1, h2⟩ := validate_ok_true_isSome (hall r hr)
            simp only [List.getD_eq_getElem?_getD] at h1 h2
            simp [h1, h2]
          have hdrop : dropnaRows i j rs = rs := List.filter_eq_self.mpr hsome
          by_cases hrs0 : (rs.isEmpty : Bool)
          · simp [clean_coordinates, DataFrame.isEmpty, hrs0]
          · have hcols : df.cols.isEmpty = false := by
              cases hc : df.cols.isEmpty
              · rfl
              · exact absurd (by simp [DataFrame.isEmpty, hc]) he
            simp only [clean_coordinates, DataFrame.isEmpty]
            simp only [Bool.not_eq_true] at hrs0
            rw [hrs0, hcols]
            simp only [Bool.or_self, Bool.false_eq_true, if_false]
            rw [hi, hj]
            simp only [hdrop, hrs0, Bool.false_eq_true, if_false]
            rw [filterValidRows_of_all hall]
    · cases h

theorem length_filter_not_add {α : Type} (l : List α) (p : α → Bool) :
    (l.filter (fun a => ! p a)).length + (l.filter p).length = l.length := by
  induction l with
  | nil => rfl
  | cons a t ih =>
    cases h : p a <;> simp [List.filter_cons, h] <;> omega

theorem green_block_ok {m gg : DataFrame} (h : green_block m = Except.ok gg) :
    ∃ i1 i2 i3 i4,
      colIdx? m.cols "brandName_esb" = some i1 ∧
      colIdx? m.cols "branchName_esb" = some i2 ∧
      colIdx? m.cols "latitude_esb" = some i3 ∧
      colIdx? m.cols "longitude_esb" = some i4 ∧
      gg = ⟨green_cols (colIdx? m.cols "name_similarity")
              (colIdx? m.cols "match_confidence"),
            m.rows.map (green_row i1 i2 i3 i4 (colIdx? m.cols "name_similarity")
              (colIdx? m.cols "match_confidence"))⟩ := by
  unfold green_block at h
  split at h
  · rename_i i1 i2 i3 i4 h1 h2 h3 h4
    injection h with h
    exact ⟨i1, i2, i3, i4, h1, h2, h3, h4, h.symm⟩
  · cases h

theorem esb_unmatched_sub {esb green u : DataFrame}
    (h : esb_unmatched_of esb green = Except.ok u) :
    u.cols = esb.cols ∧ ∀ r ∈ u.rows, r ∈ esb.rows := by
  unfold esb_unmatched_of at h
  split at h
  · injection h with h
    subst h
    exact ⟨rfl, fun r hr => hr⟩
  · split at h
    · injection h with h
      subst h
      exact ⟨rfl, fun r hr => List.mem_of_mem_filter hr⟩
    · cases h

theorem esb_unmatched_of_nonempty {esb green u : DataFrame}
    (hg : green.isEmpty = false) (h : esb_unmatched_of esb green = Except.ok u) :
    ∃ ib ig,
      colIdx? esb.cols "brandName" = some ib ∧
      colIdx? green.cols "nama_restoran" = some ig ∧
      u = ⟨esb.cols,
        esb.rows.filter (fun r =>
          (((esb.col ib).dedup).filter
              (fun c => pyNotInSet c ((green.col ig).dedup))).contains
            (r.getD ib none))⟩ := by
  unfold esb_unmatched_of at h
  rw [hg] at h
  simp only [Bool.false_eq_true, if_false] at h
  split at h
  · rename_i ib ig h1 h2
    injection h with h
    exact ⟨ib, ig, h1, h2, h.symm⟩
  · cases h

theorem jakarta_unmatched_sub {jak green u : DataFrame}
    (h : jakarta_unmatched_of jak green = Except.ok u) :
    u.cols = jak.cols ∧ ∀ r ∈ u.rows, r ∈ jak.rows := by
  unfold jakarta_unmatched_of at h
  split at h
  · injection h with h
    subst h
    exact ⟨rfl, fun r hr => hr⟩
  · split at h
    · injection h with h
      subst h
      exact ⟨rfl, fun r hr => List.mem_of_mem_filter hr⟩
    · cases h

theorem jakarta_unmatched_of_nonempty {jak green u : DataFrame}
    (hg : green.isEmpty = false)
    (h : jakarta_unmatched_of jak green = Except.ok u) :
    ∃ ij ig,
      colIdx? jak.cols "nama_restoran" = some ij ∧
      colIdx? green.cols "nama_restoran" = some ig ∧
      u = ⟨jak.cols,
        jak.rows.filter (fun r =>
          (((jak.col ij).dedup).filter
              (fun c => pyNotInSet c ((green.col ig).dedup))).contains
            (r.getD ij none))⟩ := by
  unfold jakarta_unmatched_of at h
  rw [hg] at h
  simp only [Bool.false_eq_true, if_false] at h
  split at h
  · rename_i ij ig h1 h2
    injection h with h
    exact ⟨ij, ig, h1, h2, h.symm⟩
  · cases h

theorem orange_block_ok {esb green o : DataFrame}
    (h : orange_block esb green = Except.ok o) :
    ∃ u i1 i2 i3 i4,
      esb_unmatched_of esb green = Except.ok u ∧
      colIdx? u.cols "brandName" = some i1 ∧
      colIdx? u.cols "branchName" = some i2 ∧
      colIdx? u.cols "lat" = some i3 ∧
      colIdx? u.cols "lon" = some i4 ∧
      o = ⟨orange_cols (colIdx? u.cols "cityName"),
           u.rows.map (orange_row i1 i2 i3 i4 (colIdx? u.cols "cityName"))⟩ := by
  unfold orange_block at h
  split at h
  · cases h
  · rename_i u hu
    split at h
    · rename_i i1 i2 i3 i4 h1 h2 h3 h4
      injection h with h
      exact ⟨u, i1, i2, i3, i4, hu, h1, h2, h3, h4, h.symm⟩
    · cases h

theorem blue_block_ok {jak green b : DataFrame}
    (h : blue_block jak green = Except.ok b) :
    ∃ u i1 i2 i3,
      jakarta_unmatched_of jak green = Except.ok u ∧
      colIdx? u.cols "nama_restoran" = some i1 ∧
      colIdx? u.cols "lat" = some i2 ∧
      colIdx? u.cols "lon" = some i3 ∧
      b = ⟨blue_cols (colIdx? u.cols "Pricing"),
           u.rows.map (blue_row i1 i2 i3 (colIdx? u.cols "Pricing"))⟩ := by
  unfold blue_block at h
  split at h
  · cases h
  · rename_i u hu
    split at h
    · rename_i i1 i2 i3 h1 h2 h3
      injection h with h
      exact ⟨u, i1, i2, i3, hu, h1, h2, h3, h.symm⟩
    · cases h

theorem load_and_process_data_eq {m e j mc ec jc : DataFrame}
    (hm : clean_coordinates m "latitude_esb" "longitude_esb" = Except.ok mc)
    (he : clean_coordinates (standardize_esb e) "lat" "lon" = Except.ok ec)
    (hj : clean_coordinates (standardize_jakarta j) "lat" "lon" = Except.ok jc) :
    load_and_process_data m e j =
      Except.ok
        (runBlock (!mc.isEmpty) (green_block mc),
         runBlock (!ec.isEmpty)
           (orange_block ec (runBlock (!mc.isEmpty) (green_block mc))),
         runBlock (!jc.isEmpty)
           (blue_block jc (runBlock (!mc.isEmpty) (green_block mc)))) := by
  unfold load_and_process_data
  rw [hm, he, hj]

theorem load_and_process_data_inv {m e j : DataFrame}
    {t : DataFrame × DataFrame × DataFrame}
    (h : load_and_process_data m e j = Except.ok t) :
    ∃ mc ec jc,
      clean_coordinates m "latitude_esb" "longitude_esb" = Except.ok mc ∧
      clean_coordinates (standardize_esb e) "lat" "lon" = Except.ok ec ∧
      clean_coordinates (standardize_jakarta j) "lat" "lon" = Except.ok jc ∧
      t = (runBlock (!mc.isEmpty) (green_block mc),
           runBlock (!ec.isEmpty)
             (orange_block ec (runBlock (!mc.isEmpty) (green_block mc))),
           runBlock (!jc.isEmpty)
             (blue_block jc (runBlock (!mc.isEmpty) (green_block mc)))) := by
  unfold load_and_process_data at h
  split at h
  · cases h
  · rename_i mc hm
    split at h
    · cases h
    · rename_i ec he
      split at h
      · cases h
      · rename_i jc hj
        injection h with h
        exact ⟨mc, ec, jc, hm, he, hj, h.symm⟩

/-- Every row of a non-empty cleaned frame passes `validate_coordinates` on
the two cleaned coordinate columns. -/
theorem clean_coordinates_valid {df d : DataFrame} {c1 c2 : String}
    (h : clean_coordinates df c1 c2 = Except.ok d) (hne : d.isEmpty = false) :
    ∃ i j, colIdx? d.cols c1 = some i ∧ colIdx? d.cols c2 = some j ∧
      ∀ r ∈ d.rows, validate_cell (r.getD i none) (r.getD j none) = Except.ok true := by
  unfold clean_coordinates at h
  split at h
  · injection h with h
    subst h
    rename_i he
    rw [hne] at he
    cases he
  · split at h
    · rename_i i j hi hj
      split at h
      · injection h with h
        subst h
        rename_i hkept
        simp [DataFrame.isEmpty, hkept] at hne
      · split at h
        · cases h
        · rename_i rs hrs
          injection h with h
          subst h
          exact ⟨i, j, hi, hj,
            fun r hr => (filterValidRows_ok_mem hrs r hr).1⟩
    · cases h

theorem Config_min_lat_eq : Config.min_lat = -6.45 := by
  unfold Config.min_lat
  rw [Rat.mkRat_eq_div]
  norm_num

theorem Config_max_lat_eq : Config.max_lat = -6.08 := by
  unfold Config.max_lat
  rw [Rat.mkRat_eq_div]
  norm_num

theorem Config_min_lon_eq : Config.min_lon = 106.60 := by
  unfold Config.min_lon
  rw [Rat.mkRat_eq_div]
  norm_num

theorem Config_max_lon_eq : Config.max_lon = 107.10 := by
  unfold Config.max_lon
  rw [Rat.mkRat_eq_div]
  norm_num

theorem validate_cell_num (la lo : ℚ) :
    validate_cell (some (Val.num la)) (some (Val.num lo)) =
      Except.ok ((decide (-90 ≤ la) && decide (la ≤ 90))
        && ((decide (-180 ≤ lo) && decide (lo ≤ 180))
        && ((decide (Config.min_lat ≤ la) && decide (la ≤ Config.max_lat))
        && (decide (Config.min_lon ≤ lo) && decide (lo ≤ Config.max_lon))))) := by
  simp only [validate_cell, inRangeQ]
  cases hA : (decide ((-90 : ℚ) ≤ la) && decide (la ≤ 90)) <;>
    cases hB : (decide ((-180 : ℚ) ≤ lo) && decide (lo ≤ 180)) <;>
      cases hC : (decide (Config.min_lat ≤ la) && decide (la ≤ Config.max_lat)) <;>
        simp [hA, hB, hC]

/-- C5: `clean_coordinates` is idempotent: re-cleaning a cleaned frame
(sequenced with the `Except` bind, so an error of the first application is
the error of both sides) returns it unchanged, for every input frame and
every coordinate-column pair. -/
theorem C5_clean_idempotent (df : DataFrame) (lat_col lon_col : String) :
    Except.bind (clean_coordinates df lat_col lon_col)
      (fun d => clean_coordinates d lat_col lon_col)
      = clean_coordinates df lat_col lon_col := by
  cases hc : clean_coordinates df lat_col lon_col with
  | error e => rfl
  | ok d => exact clean_coordinates_fixed hc

/-- C4: `validate_coordinates` on numeric-or-missing inputs is total (it
never raises, returning `Except.ok`); it returns `false` when either
coordinate is missing; it returns `false` whenever the latitude is outside
[-90, 90] or the longitude outside [-180, 180]; and it returns `true` for
every numeric pair with latitude in [-6.45, -6.08] and longitude in
[106.60, 107.10]. -/
theorem C4_validate_coordinates (lat lon : Option ℚ) :
    (∃ bb, validate_cell (lat.map Val.num) (lon.map Val.num) = Except.ok bb)
    ∧ ((lat = none ∨ lon = none) →
        validate_cell (lat.map Val.num) (lon.map Val.num) = Except.ok false)
    ∧ (∀ la lo, lat = some la → lon = some lo →
        (la < -90 ∨ 90 < la ∨ lo < -180 ∨ 180 < lo) →
        validate_cell (lat.map Val.num) (lon.map Val.num) = Except.ok false)
    ∧ (∀ la lo, lat = some la → lon = some lo →
        -6.45 ≤ la → la ≤ -6.08 → 106.60 ≤ lo → lo ≤ 107.10 →
        validate_cell (lat.map Val.num) (lon.map Val.num) = Except.ok true) := by
  cases lat with
  | none =>
    refine ⟨⟨false, rfl⟩, fun _ => rfl, ?_, ?_⟩
    · intro la lo h
      cases h
    · intro la lo h
      cases h
  | some la =>
    cases lon with
    | none =>
      refine ⟨⟨false, rfl⟩, fun _ => rfl, ?_, ?_⟩
      · intro la' lo' _ h
        cases h
      · intro la' lo' _ h
        cases h
    | some lo =>
      simp only [Option.map_some']
      rw [validate_cell_num]
      refine ⟨⟨_, rfl⟩, ?_, ?_, ?_⟩
      · intro h
        rcases h with h | h <;> cases h
      · intro la' lo' hla hlo hout
        injection hla with hla
        injection hlo with hlo
        subst hla
        subst hlo
        rcases hout with h | h | h | h
        · have hn : ¬ ((-90 : ℚ) ≤ la) := not_le.mpr h
          simp [hn]
        · have hn : ¬ (la ≤ (90 : ℚ)) := not_le.mpr h
          simp [hn]
        · have hn : ¬ ((-180 : ℚ) ≤ lo) := not_le.mpr h
          simp [hn]
        · have hn : ¬ (lo ≤ (180 : ℚ)) := not_le.mpr h
          simp [hn]
      · intro la' lo' hla hlo h1 h2 h3 h4
        injection hla with hla
        injection hlo with hlo
        subst hla
        subst hlo
        have a1 : (-90 : ℚ) ≤ la := by
          have : (-6.45 : ℚ) ≤ la := h1
          linarith [this]
        have a2 : la ≤ (90 : ℚ) := by linarith [h2]
        have a3 : (-180 : ℚ) ≤ lo := by linarith [h3]
        have a4 : lo ≤ (180 : ℚ) := by linarith [h4]
        simp [Config_min_lat_eq, Config_max_lat_eq, Config_min_lon_eq,
          Config_max_lon_eq, a1, a2, a3, a4, h1, h2, h3, h4]

/-- Witness for C4 at concrete coordinates: a point inside the Jakarta
bounds validates, a missing latitude fails, an out-of-range latitude
fails. -/
theorem C4_witness :
    validate_cell (some (Val.num (mkRat (-620) 100)))
        (some (Val.num (mkRat 10680 100))) = Except.ok true
    ∧ validate_cell none (some (Val.num (mkRat 10680 100))) = Except.ok false
    ∧ validate_cell (some (Val.num 100))
        (some (Val.num (mkRat 10680 100))) = Except.ok false := by
  refine ⟨?_, ?_, ?_⟩
  · have h := (C4_validate_coordinates (some (mkRat (-620) 100))
        (some (mkRat 10680 100))).2.2.2
      (mkRat (-620) 100) (mkRat 10680 100) rfl rfl
      (by rw [Rat.mkRat_eq_div]; norm_num) (by rw [Rat.mkRat_eq_div]; norm_num)
      (by rw [Rat.mkRat_eq_div]; norm_num) (by rw [Rat.mkRat_eq_div]; norm_num)
    simpa using h
  · have h := (C4_validate_coordinates none (some (mkRat 10680 100))).2.1
      (Or.inl rfl)
    simpa using h
  · have h := (C4_validate_coordinates (some 100) (some (mkRat 10680 100))).2.2.1
      100 (mkRat 10680 100) rfl rfl (by norm_num)
    simpa using h

theorem contains_eq_decide_mem {α : Type} [BEq α] [LawfulBEq α] [DecidableEq α]
    (l : List α) (a : α) : l.contains a = decide (a ∈ l) := by
  by_cases h : a ∈ l
  · simp [h, List.elem_iff.mpr h]
  · simp only [h, decide_False]
    cases hc : l.contains a
    · rfl
    · exact absurd (List.elem_iff.mp hc) h

/-- The source's identity-set round trip (`unique()`, Python set
difference, `.isin`) agrees pointwise with the spec's identity-key
membership, for any cell drawn from the compared column. -/
theorem roundtrip_contains {c : Option Val} {col : List (Option Val)}
    (hc : c ∈ col) {green : DataFrame} {ig : ℕ}
    (hg : green.isEmpty = false)
    (hig : colIdx? green.cols "nama_restoran" = some ig) :
    ((col.dedup).filter (fun x => pyNotInSet x ((green.col ig).dedup))).contains c
      = ! inMatchedSet c green := by
  have hmn : matchedNameCells green = green.col ig := by
    simp [matchedNameCells, hg, hig]
  rw [contains_eq_decide_mem]
  cases c with
  | none =>
    have hmem : (none : Option Val) ∈ (col.dedup).filter
        (fun x => pyNotInSet x ((green.col ig).dedup)) :=
      List.mem_filter.mpr ⟨List.mem_dedup.mpr hc, rfl⟩
    simp [inMatchedSet, hmem]
  | some v =>
    simp only [inMatchedSet, hmn]
    rw [contains_eq_decide_mem]
    by_cases hv : (some v) ∈ green.col ig
    · have hp : pyNotInSet (some v) ((green.col ig).dedup) = false := by
        simp [pyNotInSet, contains_eq_decide_mem, List.mem_dedup, hv]
      simp [hv, List.mem_filter, hp]
    · have hp : pyNotInSet (some v) ((green.col ig).dedup) = true := by
        simp [pyNotInSet, contains_eq_decide_mem, List.mem_dedup, hv]
      simp [hv, List.mem_filter, hp, List.mem_dedup, hc]

/-- C1: the cleaned ESB rows are partitioned by brand-name membership in
the matched output's brand set: the `esb_unmatched` frame is exactly the
cleaned ESB rows whose brand name is outside that set (so each row lands in
exactly one of Match-side / ESB-only, none lost, none duplicated — the two
filter lengths sum to the total), and the ESB-only output carries exactly
those rows (same length, brand cell preserved in column 0). -/
theorem C1_esb_partition (esb green o : DataFrame) (ib : ℕ)
    (hib : colIdx? esb.cols "brandName" = some ib)
    (ho : orange_block esb green = Except.ok o) :
    ∃ u, esb_unmatched_of esb green = Except.ok u
      ∧ u.rows = esb.rows.filter (fun r => ! inMatchedSet (r.getD ib none) green)
      ∧ (esb.rows.filter (fun r => ! inMatchedSet (r.getD ib none) green)).length
          + (esb.rows.filter (fun r => inMatchedSet (r.getD ib none) green)).length
          = esb.rows.length
      ∧ o.rows.length = u.rows.length
      ∧ o.rows.map (fun pr => pr.getD 0 none)
          = u.rows.map (fun r => r.getD ib none) := by
  obtain ⟨u, i1, i2, i3, i4, hu, h1, h2, h3, h4, hoeq⟩ := orange_block_ok ho
  have hucols : u.cols = esb.cols := (esb_unmatched_sub hu).1
  have hib' : colIdx? u.cols "brandName" = some ib := by
    rw [hucols]
    exact hib
  have hi1 : i1 = ib := Option.some.inj (h1.symm.trans hib')
  rw [hi1] at hoeq
  refine ⟨u, hu, ?_, length_filter_not_add _ _, ?_, ?_⟩
  · by_cases hg : green.isEmpty
    · unfold esb_unmatched_of at hu
      rw [hg] at hu
      simp only [if_true] at hu
      injection hu with hu
      subst hu
      have hall : ∀ r ∈ esb.rows,
          (! inMatchedSet (r.getD ib none) green) = true := by
        intro r _
        cases hc : r.getD ib none <;>
          simp [inMatchedSet, matchedNameCells, hg]
      exact (List.filter_eq_self.mpr hall).symm
    · have hg' : green.isEmpty = false := by
        cases hge : green.isEmpty
        · rfl
        · exact absurd hge hg
      obtain ⟨ib2, ig, hib2, hig, hueq⟩ := esb_unmatched_of_nonempty hg' hu
      have he : ib2 = ib := Option.some.inj (hib2.symm.trans hib)
      subst he
      rw [hueq]
      apply List.filter_congr
      intro r hr
      exact roundtrip_contains (List.mem_map_of_mem _ hr) hg' hig
  · rw [hoeq]
    simp
  · rw [hoeq]
    simp only [List.map_map]
    rfl

/-- Witness for C1: on the sample ESB frame (brands `A`, `B`) against the
sample matched output (brand `A`), the ESB-only derivation keeps exactly
the rows with brand outside the matched set. -/
theorem C1_witness :
    ∃ u, esb_unmatched_of sampleEsb sampleGreen = Except.ok u
      ∧ u.rows = sampleEsb.rows.filter
          (fun r => ! inMatchedSet (r.getD 0 none) sampleGreen) := by
  obtain ⟨u, hu, hrows, _⟩ := C1_esb_partition sampleEsb sampleGreen
    (exceptGetD (orange_block sampleEsb sampleGreen) emptyDF) 0 rfl rfl
  exact ⟨u, hu, hrows⟩

/-- C2: the Jakarta-only derivation keys each cleaned Jakarta row on that
frame's own `nama_restoran` (restaurant display name) column — a column
distinct from the `brandName` column the ESB-side comparison reads — and
compares it against the matched output's restaurant-identity column
(`nama_restoran`): the `jakarta_unmatched` frame is exactly the cleaned
Jakarta rows whose display name is outside the matched identity set, and
the Jakarta-only output carries those display names in column 0. -/
theorem C2_jakarta_identity_field (jak green b : DataFrame) (ij : ℕ)
    (hij : colIdx? jak.cols "nama_restoran" = some ij)
    (hb : blue_block jak green = Except.ok b) :
    ∃ u, jakarta_unmatched_of jak green = Except.ok u
      ∧ u.rows = jak.rows.filter (fun r => ! inMatchedSet (r.getD ij none) green)
      ∧ b.rows.map (fun pr => pr.getD 0 none)
          = u.rows.map (fun r => r.getD ij none)
      ∧ "nama_restoran" ≠ "brandName" := by
  obtain ⟨u, i1, i2, i3, hu, h1, h2, h3, hbeq⟩ := blue_block_ok hb
  have hucols : u.cols = jak.cols := (jakarta_unmatched_sub hu).1
  have hij' : colIdx? u.cols "nama_restoran" = some ij := by
    rw [hucols]
    exact hij
  have hi1 : i1 = ij := Option.some.inj (h1.symm.trans hij')
  rw [hi1] at hbeq
  refine ⟨u, hu, ?_, ?_, by decide⟩
  · by_cases hg : green.isEmpty
    · unfold jakarta_unmatched_of at hu
      rw [hg] at hu
      simp only [if_true] at hu
      injection hu with hu
      subst hu
      have hall : ∀ r ∈ jak.rows,
          (! inMatchedSet (r.getD ij none) green) = true := by
        intro r _
        cases hc : r.getD ij none <;>
          simp [inMatchedSet, matchedNameCells, hg]
      exact (List.filter_eq_self.mpr hall).symm
    · have hg' : green.isEmpty = false := by
        cases hge : green.isEmpty
        · rfl
        · exact absurd hge hg
      obtain ⟨ij2, ig, hij2, hig, hueq⟩ := jakarta_unmatched_of_nonempty hg' hu
      have he : ij2 = ij := Option.some.inj (hij2.symm.trans hij)
      subst he
      rw [hueq]
      apply List.filter_congr
      intro r hr
      exact roundtrip_contains (List.mem_map_of_mem _ hr) hg' hig
  · rw [hbeq]
    simp only [List.map_map]
    rfl

/-- Witness for C2: on the sample Jakarta frame (restaurants `A`, `C`)
against the sample matched output (identity `A`), the Jakarta-only
derivation keys on the display-name column. -/
theorem C2_witness :
    ∃ u, jakarta_unmatched_of sampleJak sampleGreen = Except.ok u
      ∧ u.rows = sampleJak.rows.filter
          (fun r => ! inMatchedSet (r.getD 0 none) sampleGreen) := by
  obtain ⟨u, hu, hrows, _⟩ := C2_jakarta_identity_field sampleJak sampleGreen
    (exceptGetD (blue_block sampleJak sampleGreen) emptyDF) 0 rfl rfl
  exact ⟨u, hu, hrows⟩

/-- C7: the summary's three percentage fields sum to exactly 100 (of the
exact rational values; the source then formats each with `.2f`, so the
displayed values agree within rounding) whenever the grand total is
positive, and are all 0 when the grand total is 0 — the guard means no
division is evaluated in that case, and the model's total division returns
0 as well, so no error arises. -/
theorem C7_summary_percentages (g o b : DataFrame) :
    (0 < grand_total g o b →
      (summary_percentages g o b).1 + (summary_percentages g o b).2.1
        + (summary_percentages g o b).2.2 = 100)
    ∧ (grand_total g o b = 0 → summary_percentages g o b = (0, 0, 0)) := by
  constructor
  · intro h
    have hne : ((grand_total g o b : ℕ) : ℚ) ≠ 0 :=
      Nat.cast_ne_zero.mpr h.ne'
    simp only [summary_percentages, pct, if_pos h]
    have hsum : ((count_of g : ℚ) + (count_of o : ℚ) + (count_of b : ℚ))
        = ((grand_total g o b : ℕ) : ℚ) := by
      simp only [grand_total]
      push_cast
      ring
    have hrw : (count_of g : ℚ) / (grand_total g o b : ℚ) * 100
        + (count_of o : ℚ) / (grand_total g o b : ℚ) * 100
        + (count_of b : ℚ) / (grand_total g o b : ℚ) * 100
        = ((count_of g : ℚ) + (count_of o : ℚ) + (count_of b : ℚ))
            / (grand_total g o b : ℚ) * 100 := by
      ring
    rw [hrw, hsum, div_self hne]
    norm_num
  · intro h
    simp [summary_percentages, pct, h]

/-- Witness for C7: with one Match row and empty other categories the
percentages sum to 100; with all three empty they are all 0. -/
theorem C7_witness :
    (summary_percentages sampleGreen emptyDF emptyDF).1
      + (summary_percentages sampleGreen emptyDF emptyDF).2.1
      + (summary_percentages sampleGreen emptyDF emptyDF).2.2 = 100
    ∧ summary_percentages emptyDF emptyDF emptyDF = (0, 0, 0) :=
  ⟨(C7_summary_percentages sampleGreen emptyDF emptyDF).1 (by decide),
   (C7_summary_percentages emptyDF emptyDF emptyDF).2 rfl⟩

/-- C8 counterexample: the ESB frame's `longitude` column is an alias-map
column that is present, yet harmonization does not rename it when
`latitude` is absent — refuting "every alias column that is present is
renamed". -/
theorem C8_counterexample :
    standardize_esb ⟨["longitude"], []⟩ = ⟨["longitude"], []⟩
    ∧ ["longitude"] ≠ ["lon"] :=
  ⟨rfl, by decide⟩

/-- C8 amended: harmonization never errors and never touches rows; on the
Jakarta frame every alias column present is renamed to its canonical name
and absent aliases are no-ops; on the ESB frame `longitude`/`latitude` are
renamed exactly when both are present, and otherwise the frame is returned
unchanged — even when exactly one of the two aliases is present. -/
theorem C8_harmonization (e j : DataFrame) :
    (standardize_jakarta j).rows = j.rows
    ∧ (standardize_jakarta j).cols = j.cols.map (fun c =>
        if c = "longitude" then "lon"
        else if c = "latitude" then "lat"
        else if c = "Nama Restoran" then "nama_restoran" else c)
    ∧ (standardize_esb e).rows = e.rows
    ∧ (e.cols.contains "longitude" = true → e.cols.contains "latitude" = true →
        (standardize_esb e).cols = e.cols.map (fun c =>
          if c = "longitude" then "lon"
          else if c = "latitude" then "lat" else c))
    ∧ (¬ (e.cols.contains "longitude" = true ∧ e.cols.contains "latitude" = true) →
        standardize_esb e = e) := by
  refine ⟨rfl, ?_, ?_, ?_, ?_⟩
  · simp only [standardize_jakarta, renameCols]
    apply List.map_congr_left
    intro c _
    by_cases h1 : c = "longitude"
    · subst h1; rfl
    · by_cases h2 : c = "latitude"
      · subst h2; rfl
      · by_cases h3 : c = "Nama Restoran"
        · subst h3; rfl
        · simp only [List.lookup,
            show (c == "longitude") = false from beq_eq_false_iff_ne.mpr h1,
            show (c == "latitude") = false from beq_eq_false_iff_ne.mpr h2,
            show (c == "Nama Restoran") = false from beq_eq_false_iff_ne.mpr h3]
          simp [h1, h2, h3]
  · unfold standardize_esb
    split
    · rfl
    · rfl
  · intro hlon hlat
    simp only [standardize_esb, hlon, hlat, Bool.and_self, if_true, renameCols]
    apply List.map_congr_left
    intro c _
    by_cases h1 : c = "longitude"
    · subst h1; rfl
    · by_cases h2 : c = "latitude"
      · subst h2; rfl
      · simp only [List.lookup,
          show (c == "longitude") = false from beq_eq_false_iff_ne.mpr h1,
          show (c == "latitude") = false from beq_eq_false_iff_ne.mpr h2]
        simp [h1, h2]
  · intro hcond
    have hb : (e.cols.contains "longitude" && e.cols.contains "latitude") = false := by
      cases h1 : e.cols.contains "longitude"
      · rfl
      · cases h2 : e.cols.contains "latitude"
        · rfl
        · exact absurd ⟨h1, h2⟩ hcond
    unfold standardize_esb
    rw [hb]
    rfl

/-- Witness for C8 amended: both coordinate aliases present on the ESB side
are renamed; a present Jakarta alias is renamed independently. -/
theorem C8_witness :
    (standardize_esb ⟨["longitude", "latitude", "brandName"], []⟩).cols
        = ["lon", "lat", "brandName"]
    ∧ (standardize_jakarta ⟨["Nama Restoran", "latitude"], []⟩).cols
        = ["nama_restoran", "lat"] := by
  constructor
  · have h := (C8_harmonization ⟨["longitude", "latitude", "brandName"], []⟩
      emptyDF).2.2.2.1 (by decide) (by decide)
    rw [h]
    decide
  · have h := (C8_harmonization emptyDF ⟨["Nama Restoran", "latitude"], []⟩).2.1
    rw [h]
    decide

/-- C3 counterexample: with an empty matched input the Jakarta-only output
is NOT the cleaned Jakarta frame with only category and color-tag fields
added — the code also appends empty-string `cabang` and `cityName`
columns (and in general projects away non-canonical columns). -/
theorem C3_counterexample :
    (load_and_process_data emptyDF emptyDF
        ⟨["nama_restoran", "lat", "lon"],
         [[some (Val.str "A"), some (Val.num (mkRat (-620) 100)), some (Val.num (mkRat 10680 100))]]⟩).map
      (fun t => t.2.2.cols)
      = Except.ok ["nama_restoran", "lat", "lon",
          "cabang", "cityName", "kategori", "warna"]
    ∧ ["nama_restoran", "lat", "lon", "cabang", "cityName", "kategori", "warna"]
        ≠ ["nama_restoran", "lat", "lon"] ++ ["kategori", "warna"] :=
  ⟨rfl, by decide⟩

/-- C3 amended: when the cleaned matched frame is empty, the pipeline
returns an empty Match output, and the ESB-only / Jakarta-only derivations
subtract nothing: the unmatched frames equal the entire cleaned full
frames, and every successful category output carries exactly one row per
cleaned row (the outputs are canonical-column projections with category,
color — and on the Jakarta side empty `cabang`/`cityName` — fields
added, rather than the verbatim input columns). -/
theorem C3_empty_matched (m e j mc ec jc : DataFrame)
    (hm : clean_coordinates m "latitude_esb" "longitude_esb" = Except.ok mc)
    (he : clean_coordinates (standardize_esb e) "lat" "lon" = Except.ok ec)
    (hj : clean_coordinates (standardize_jakarta j) "lat" "lon" = Except.ok jc)
    (hmc : mc.isEmpty = true) :
    load_and_process_data m e j
      = Except.ok (emptyDF,
          runBlock (!ec.isEmpty) (orange_block ec emptyDF),
          runBlock (!jc.isEmpty) (blue_block jc emptyDF))
    ∧ esb_unmatched_of ec emptyDF = Except.ok ec
    ∧ jakarta_unmatched_of jc emptyDF = Except.ok jc
    ∧ (∀ o, orange_block ec emptyDF = Except.ok o →
        o.rows.length = ec.rows.length)
    ∧ (∀ b, blue_block jc emptyDF = Except.ok b →
        b.rows.length = jc.rows.length) := by
  have hgreen : runBlock (!mc.isEmpty) (green_block mc) = emptyDF := by
    rw [hmc]
    rfl
  refine ⟨?_, rfl, rfl, ?_, ?_⟩
  · rw [load_and_process_data_eq hm he hj, hgreen]
  · intro o ho
    obtain ⟨u, i1, i2, i3, i4, hu, _, _, _, _, hoeq⟩ := orange_block_ok ho
    have hueq : Except.ok ec = Except.ok u :=
      (show esb_unmatched_of ec emptyDF = Except.ok ec from rfl).symm.trans hu
    have hu' : u = ec := (Except.ok.inj hueq).symm
    rw [hoeq, hu']
    simp
  · intro b hb
    obtain ⟨u, i1, i2, i3, hu, _, _, _, hbeq⟩ := blue_block_ok hb
    have hueq : Except.ok jc = Except.ok u :=
      (show jakarta_unmatched_of jc emptyDF = Except.ok jc from rfl).symm.trans hu
    have hu' : u = jc := (Except.ok.inj hueq).symm
    rw [hbeq, hu']
    simp

/-- Witness for C3 amended: with an empty matched frame the ESB-only
derivation keeps the entire cleaned sample ESB frame. -/
theorem C3_witness :
    esb_unmatched_of sampleEsb emptyDF = Except.ok sampleEsb :=
  (C3_empty_matched emptyDF sampleEsb sampleJak emptyDF sampleEsb sampleJak
    rfl rfl rfl rfl).2.1

/-- C10: when processing of the cleaned matched frame fails (its category
block raises, e.g. because `brandName_esb` is absent), the exception is
caught, the Match output is the initial empty frame, and the ESB-only and
Jakarta-only derivations therefore take the empty-matched branch: they
subtract nothing and keep the entire cleaned ESB and Jakarta frames. -/
theorem C10_matched_failure (m e j mc ec jc : DataFrame) (msg : String)
    (hm : clean_coordinates m "latitude_esb" "longitude_esb" = Except.ok mc)
    (he : clean_coordinates (standardize_esb e) "lat" "lon" = Except.ok ec)
    (hj : clean_coordinates (standardize_jakarta j) "lat" "lon" = Except.ok jc)
    (hfail : green_block mc = Except.error msg) :
    load_and_process_data m e j
      = Except.ok (emptyDF,
          runBlock (!ec.isEmpty) (orange_block ec emptyDF),
          runBlock (!jc.isEmpty) (blue_block jc emptyDF))
    ∧ esb_unmatched_of ec emptyDF = Except.ok ec
    ∧ jakarta_unmatched_of jc emptyDF = Except.ok jc
    ∧ (∀ o, orange_block ec emptyDF = Except.ok o →
        o.rows.length = ec.rows.length)
    ∧ (∀ b, blue_block jc emptyDF = Except.ok b →
        b.rows.length = jc.rows.length) := by
  have hgreen : runBlock (!mc.isEmpty) (green_block mc) = emptyDF := by
    cases hmc : mc.isEmpty
    · simp [runBlock, hfail]
    · simp [runBlock]
  refine ⟨?_, rfl, rfl, ?_, ?_⟩
  · rw [load_and_process_data_eq hm he hj, hgreen]
  · intro o ho
    obtain ⟨u, i1, i2, i3, i4, hu, _, _, _, _, hoeq⟩ := orange_block_ok ho
    have hueq : Except.ok ec = Except.ok u :=
      (show esb_unmatched_of ec emptyDF = Except.ok ec from rfl).symm.trans hu
    have hu' : u = ec := (Except.ok.inj hueq).symm
    rw [hoeq, hu']
    simp
  · intro b hb
    obtain ⟨u, i1, i2, i3, hu, _, _, _, hbeq⟩ := blue_block_ok hb
    have hueq : Except.ok jc = Except.ok u :=
      (show jakarta_unmatched_of jc emptyDF = Except.ok jc from rfl).symm.trans hu
    have hu' : u = jc := (Except.ok.inj hueq).symm
    rw [hbeq, hu']
    simp

/-- Witness for C10: with a matched frame lacking `brandName_esb` (so the
green block fails), the Match output is empty and the Jakarta-only
derivation keeps the entire cleaned sample Jakarta frame. -/
theorem C10_witness :
    (exceptGetD (load_and_process_data sampleMatchedNoBrand sampleEsb sampleJak)
        (sampleGreen, sampleGreen, sampleGreen)).1 = emptyDF
    ∧ jakarta_unmatched_of sampleJak emptyDF = Except.ok sampleJak := by
  have h := C10_matched_failure sampleMatchedNoBrand sampleEsb sampleJak
    sampleMatchedNoBrand sampleEsb sampleJak "KeyError: matched columns"
    rfl rfl rfl rfl
  constructor
  · rw [h.1]
    rfl
  · exact h.2.2.1

/-- C9 counterexample: a required coordinate column (`lat`) absent from a
non-empty, otherwise-valid ESB frame is hit by `clean_coordinates`, which
runs OUTSIDE every `try` block — the whole pipeline invocation aborts with
the error, and no category output (not even for the two healthy datasets)
is produced, refuting "never a fatal abort of the whole pipeline". -/
theorem C9_counterexample :
    load_and_process_data sampleMatched sampleEsbNoLat sampleJak
      = Except.error "KeyError: dropna subset" := rfl

/-- C9 amended: the recoverable-degradation behaviour holds for the
required identity/branch columns read inside the category `try` blocks: a
cleaned ESB frame lacking `brandName` makes only the ESB-only output empty
while the Match and Jakarta-only outputs are still computed; but a missing
coordinate column in a non-empty dataset instead aborts the whole pipeline
(see the counterexample). -/
theorem C9_missing_identity_column (m e j mc ec jc : DataFrame)
    (hm : clean_coordinates m "latitude_esb" "longitude_esb" = Except.ok mc)
    (he : clean_coordinates (standardize_esb e) "lat" "lon" = Except.ok ec)
    (hj : clean_coordinates (standardize_jakarta j) "lat" "lon" = Except.ok jc)
    (hmiss : colIdx? ec.cols "brandName" = none) :
    load_and_process_data m e j
      = Except.ok (runBlock (!mc.isEmpty) (green_block mc),
          emptyDF,
          runBlock (!jc.isEmpty)
            (blue_block jc (runBlock (!mc.isEmpty) (green_block mc)))) := by
  rw [load_and_process_data_eq hm he hj]
  have horange : ∀ g, runBlock (!ec.isEmpty) (orange_block ec g) = emptyDF := by
    intro g
    cases hec : ec.isEmpty
    · have hno : ∀ o, orange_block ec g ≠ Except.ok o := by
        intro o ho
        obtain ⟨u, i1, _, _, _, hu, h1, _⟩ := orange_block_ok ho
        rw [(esb_unmatched_sub hu).1, hmiss] at h1
        cases h1
      cases hob : orange_block ec g with
      | error e1 => simp [runBlock, hob]
      | ok o => exact absurd hob (hno o)
    · simp [runBlock]
  rw [horange]

/-- Witness for C9 amended: a cleaned ESB frame missing `brandName` leaves
the ESB-only output empty while the other two outputs are computed. -/
theorem C9_witness :
    (exceptGetD (load_and_process_data sampleMatched sampleEsbNoBrand sampleJak)
        (sampleGreen, sampleGreen, sampleGreen)).2.1 = emptyDF := by
  rw [C9_missing_identity_column sampleMatched sampleEsbNoBrand sampleJak
    sampleMatched sampleEsbNoBrand sampleJak rfl rfl rfl rfl]
  rfl

theorem hasValidCoords_empty : hasValidCoords emptyDF := by
  intro r hr
  simp [emptyDF] at hr

theorem green_block_valid {mc gg : DataFrame}
    (hc : ∃ i j, colIdx? mc.cols "latitude_esb" = some i ∧
      colIdx? mc.cols "longitude_esb" = some j ∧
      ∀ r ∈ mc.rows, validate_cell (r.getD i none) (r.getD j none) = Except.ok true)
    (h : green_block mc = Except.ok gg) : hasValidCoords gg := by
  obtain ⟨i, j, hi, hj, hv⟩ := hc
  obtain ⟨i1, i2, i3, i4, h1, h2, h3, h4, hgeq⟩ := green_block_ok h
  have e3 : i3 = i := Option.some.inj (h3.symm.trans hi)
  have e4 : i4 = j := Option.some.inj (h4.symm.trans hj)
  subst hgeq
  intro r' hr'
  simp only [List.mem_map] at hr'
  obtain ⟨r, hr, hre⟩ := hr'
  subst hre
  refine ⟨2, 3, rfl, rfl, ?_⟩
  show validate_cell (r.getD i3 none) (r.getD i4 none) = Except.ok true
  rw [e3, e4]
  exact hv r hr

theorem orange_block_valid {ec green o : DataFrame}
    (hc : ∃ i j, colIdx? ec.cols "lat" = some i ∧
      colIdx? ec.cols "lon" = some j ∧
      ∀ r ∈ ec.rows, validate_cell (r.getD i none) (r.getD j none) = Except.ok true)
    (h : orange_block ec green = Except.ok o) : hasValidCoords o := by
  obtain ⟨i, j, hi, hj, hv⟩ := hc
  obtain ⟨u, i1, i2, i3, i4, hu, h1, h2, h3, h4, hoeq⟩ := orange_block_ok h
  obtain ⟨hucols, husub⟩ := esb_unmatched_sub hu
  rw [hucols] at h3 h4
  have e3 : i3 = i := Option.some.inj (h3.symm.trans hi)
  have e4 : i4 = j := Option.some.inj (h4.symm.trans hj)
  subst hoeq
  intro r' hr'
  simp only [List.mem_map] at hr'
  obtain ⟨r, hr, hre⟩ := hr'
  subst hre
  refine ⟨2, 3, rfl, rfl, ?_⟩
  show validate_cell (r.getD i3 none) (r.getD i4 none) = Except.ok true
  rw [e3, e4]
  exact hv r (husub r hr)

theorem blue_block_valid {jc green b : DataFrame}
    (hc : ∃ i j, colIdx? jc.cols "lat" = some i ∧
      colIdx? jc.cols "lon" = some j ∧
      ∀ r ∈ jc.rows, validate_cell (r.getD i none) (r.getD j none) = Except.ok true)
    (h : blue_block jc green = Except.ok b) : hasValidCoords b := by
  obtain ⟨i, j, hi, hj, hv⟩ := hc
  obtain ⟨u, i1, i2, i3, hu, h1, h2, h3, hbeq⟩ := blue_block_ok h
  obtain ⟨hucols, husub⟩ := jakarta_unmatched_sub hu
  rw [hucols] at h2 h3
  have e2 : i2 = i := Option.some.inj (h2.symm.trans hi)
  have e3 : i3 = j := Option.some.inj (h3.symm.trans hj)
  subst hbeq
  intro r' hr'
  simp only [List.mem_map] at hr'
  obtain ⟨r, hr, hre⟩ := hr'
  subst hre
  refine ⟨1, 2, rfl, rfl, ?_⟩
  show validate_cell (r.getD i2 none) (r.getD i3 none) = Except.ok true
  rw [e2, e3]
  exact hv r (husub r hr)

theorem no_bad_row_of_valid {df : DataFrame} (hv : hasValidCoords df) :
    ∀ r ∈ df.rows, ∀ i jx, colIdx? df.cols "lat" = some i →
      colIdx? df.cols "lon" = some jx →
      ¬ (r.getD i none = some (Val.num (-6.2))
          ∧ r.getD jx none = some (Val.num 200)) := by
  rintro r hr i jx hi hjx ⟨ha, hb⟩
  obtain ⟨i', j', hi', hj', hvr⟩ := hv r hr
  have e1 : i = i' := Option.some.inj (hi.symm.trans hi')
  have e2 : jx = j' := Option.some.inj (hjx.symm.trans hj')
  rw [← e1, ← e2] at hvr
  rw [ha, hb] at hvr
  have hfalse : validate_cell (some (Val.num (-6.2))) (some (Val.num 200))
      = Except.ok false := by
    rw [validate_cell_num]
    norm_num
  have hc := hvr.symm.trans hfalse
  simp at hc

/-- C6: for every successful pipeline run, each of the three categorized
outputs satisfies the coordinate invariant — every row's canonical
`lat`/`lon` cells pass `validate_coordinates` — and consequently no row
with latitude -6.2 and longitude 200.0 (whose validation is `false`)
appears in any of the three outputs. -/
theorem C6_valid_outputs (m e j g o b : DataFrame)
    (h : load_and_process_data m e j = Except.ok (g, o, b)) :
    (hasValidCoords g ∧ hasValidCoords o ∧ hasValidCoords b)
    ∧ (∀ df ∈ [g, o, b], ∀ r ∈ df.rows, ∀ i jx,
        colIdx? df.cols "lat" = some i → colIdx? df.cols "lon" = some jx →
        ¬ (r.getD i none = some (Val.num (-6.2))
            ∧ r.getD jx none = some (Val.num 200))) := by
  obtain ⟨mc, ec, jc, hm, he, hj2, ht⟩ := load_and_process_data_inv h
  have hg : g = runBlock (!mc.isEmpty) (green_block mc) :=
    congrArg (fun t => t.1) ht
  have ho : o = runBlock (!ec.isEmpty)
      (orange_block ec (runBlock (!mc.isEmpty) (green_block mc))) :=
    congrArg (fun t => t.2.1) ht
  have hb : b = runBlock (!jc.isEmpty)
      (blue_block jc (runBlock (!mc.isEmpty) (green_block mc))) :=
    congrArg (fun t => t.2.2) ht
  have hvg : hasValidCoords g := by
    rw [hg]
    cases hmc : mc.isEmpty
    · cases hgb : green_block mc with
      | error e1 => exact hasValidCoords_empty
      | ok gg => exact green_block_valid (clean_coordinates_valid hm hmc) hgb
    · exact hasValidCoords_empty
  have hvo : hasValidCoords o := by
    rw [ho]
    cases hec : ec.isEmpty
    · cases hob : orange_block ec (runBlock (!mc.isEmpty) (green_block mc)) with
      | error e1 => exact hasValidCoords_empty
      | ok oo => exact orange_block_valid (clean_coordinates_valid he hec) hob
    · exact hasValidCoords_empty
  have hvb : hasValidCoords b := by
    rw [hb]
    cases hjc : jc.isEmpty
    · cases hbb : blue_block jc (runBlock (!mc.isEmpty) (green_block mc)) with
      | error e1 => exact hasValidCoords_empty
      | ok bb => exact blue_block_valid (clean_coordinates_valid hj2 hjc) hbb
    · exact hasValidCoords_empty
  refine ⟨⟨hvg, hvo, hvb⟩, ?_⟩
  intro df hdf
  simp only [List.mem_cons, List.mem_singleton, List.not_mem_nil, or_false] at hdf
  rcases hdf with hdf | hdf | hdf
  · exact no_bad_row_of_valid (hdf ▸ hvg)
  · exact no_bad_row_of_valid (hdf ▸ hvo)
  · exact no_bad_row_of_valid (hdf ▸ hvb)

/-- Witness for C6: the pipeline run on the sample inputs succeeds and its
Match output satisfies the coordinate invariant on its single row. -/
theorem C6_witness :
    validate_cell
      (((exceptGetD (load_and_process_data sampleMatched sampleEsb sampleJak)
          (emptyDF, emptyDF, emptyDF)).1.rows.getD 0 []).getD 2 none)
      (((exceptGetD (load_and_process_data sampleMatched sampleEsb sampleJak)
          (emptyDF, emptyDF, emptyDF)).1.rows.getD 0 []).getD 3 none)
      = Except.ok true := by
  have h := C6_valid_outputs sampleMatched sampleEsb sampleJak
    (exceptGetD (load_and_process_data sampleMatched sampleEsb sampleJak)
      (emptyDF, emptyDF, emptyDF)).1
    (exceptGetD (load_and_process_data sampleMatched sampleEsb sampleJak)
      (emptyDF, emptyDF, emptyDF)).2.1
    (exceptGetD (load_and_process_data sampleMatched sampleEsb sampleJak)
      (emptyDF, emptyDF, emptyDF)).2.2
    rfl
  obtain ⟨⟨hvg, _, _⟩, _⟩ := h
  obtain ⟨i, jx, hi, hjx, hval⟩ := hvg
    ((exceptGetD (load_and_process_data sampleMatched sampleEsb sampleJak)
      (emptyDF, emptyDF, emptyDF)).1.rows.getD 0 []) (by decide)
  have e1 : i = 2 := by
    have : colIdx? (exceptGetD (load_and_process_data sampleMatched sampleEsb
        sampleJak) (emptyDF, emptyDF, emptyDF)).1.cols "lat" = some 2 := by decide
    exact Option.some.inj (hi.symm.trans this)
  have e2 : jx = 3 := by
    have : colIdx? (exceptGetD (load_and_process_data sampleMatched sampleEsb
        sampleJak) (emptyDF, emptyDF, emptyDF)).1.cols "lon" = some 3 := by decide
    exact Option.some.inj (hjx.symm.trans this)
  rw [e1, e2] at hval
  exact hval
